import Mathlib

/-!
Verification of the loan calculator and ledger logic of the
ukamba-microcredito repository.

Modelling conventions (shallow embedding of the Python source):
* Python `float` money/rate values are modelled as exact rationals (`ℚ`);
  Python `round(x, 2)` is modelled as decimal round-half-even to two
  decimal places on `ℚ` (`round2` below).
* Python `datetime.date` is modelled by the structure `PyDate` together
  with the validity predicate `PyDate.IsValid` (Python's `date`
  constructor accepts exactly years 1..9999, months 1..12 and days
  1..days-in-month, raising `ValueError` otherwise).
* The unbounded `while True` day-decrement loop of `adicionar_meses` is
  modelled with explicit fuel (`findDiaFuel`); returning `none` for every
  fuel is how the embedding exhibits non-termination of the source loop.
* Fallible functions (`raise ValueError`) return `Except String _`,
  carrying the exact source error message.
-/

namespace Ukamba

/-- Calendar date as Python's `datetime.date` triple (year, month, day). -/
structure PyDate where
  year : Int
  month : Int
  day : Int
deriving Repr, DecidableEq

/-- Gregorian leap-year rule used by Python's `datetime`. -/
def isLeap (y : Int) : Prop :=
  y % 4 = 0 ∧ (y % 100 ≠ 0 ∨ y % 400 = 0)

instance (y : Int) : Decidable (isLeap y) := by
  unfold isLeap; infer_instance

/-- Number of days of month `m` in year `y` (for `1 ≤ m ≤ 12`). -/
def daysInMonth (y m : Int) : Int :=
  if m = 2 then (if isLeap y then 29 else 28)
  else if m = 4 ∨ m = 6 ∨ m = 9 ∨ m = 11 then 30
  else 31

/-- `date(y, m, d)` succeeds in Python exactly under these bounds. -/
def isValidDate (y m d : Int) : Prop :=
  1 ≤ y ∧ y ≤ 9999 ∧ 1 ≤ m ∧ m ≤ 12 ∧ 1 ≤ d ∧ d ≤ daysInMonth y m

instance (y m d : Int) : Decidable (isValidDate y m d) := by
  unfold isValidDate; infer_instance

/-- Validity of a `PyDate` value. -/
def PyDate.IsValid (d : PyDate) : Prop :=
  isValidDate d.year d.month d.day

instance (d : PyDate) : Decidable d.IsValid := by
  unfold PyDate.IsValid; infer_instance

/-- Python's `date` ordering: lexicographic on (year, month, day). -/
def dateLE (a b : PyDate) : Prop :=
  a.year < b.year ∨
    (a.year = b.year ∧
      (a.month < b.month ∨ (a.month = b.month ∧ a.day ≤ b.day)))

instance (a b : PyDate) : Decidable (dateLE a b) := by
  unfold dateLE; infer_instance

/-- The day after `d` (strictly later in the `dateLE` order). -/
def nextDay (d : PyDate) : PyDate :=
  if d.day < daysInMonth d.year d.month then ⟨d.year, d.month, d.day + 1⟩
  else if d.month < 12 then ⟨d.year, d.month + 1, 1⟩
  else ⟨d.year + 1, 1, 1⟩

/-! ## `app/services/juros.py` -/

/-- `obter_taxa_por_meses`: static duration → rate table, `ValueError`
outside 1..6. -/
def obter_taxa_por_meses (duracao_meses : Int) : Except String ℚ :=
  if duracao_meses = 1 then .ok (9/100)
  else if duracao_meses = 2 then .ok (19/100)
  else if duracao_meses = 3 then .ok (30/100)
  else if duracao_meses = 4 then .ok (41/100)
  else if duracao_meses = 5 then .ok (54/100)
  else if duracao_meses = 6 then .ok (68/100)
  else .error "Duração inválida. Permitido apenas 1 a 6 meses."

/-- `calcular_total_reembolsar`: looks up the rate and returns
`(taxa, valor * (1 + taxa))`.  Note: the source performs no check on
`valor_solicitado`. -/
def calcular_total_reembolsar (valor_solicitado : ℚ) (duracao_meses : Int) :
    Except String (ℚ × ℚ) :=
  match obter_taxa_por_meses duracao_meses with
  | .error e => .error e
  | .ok taxa => .ok (taxa, valor_solicitado * (1 + taxa))

/-- `calcular_prestacao_mensal`: guards `duracao_meses <= 0`, else plain
division. -/
def calcular_prestacao_mensal (total_reembolsar : ℚ) (duracao_meses : Int) :
    Except String ℚ :=
  if duracao_meses ≤ 0 then .error "Duração inválida."
  else .ok (total_reembolsar / (duracao_meses : ℚ))

/-- The `while mes > 12: mes -= 12; ano += 1` carry loop of
`adicionar_meses` (always terminates: `mes` strictly decreases while
above 12). -/
def carryLoop (ano mes : Int) : Int × Int :=
  if h : 12 < mes then carryLoop (ano + 1) (mes - 12)
  else (ano, mes)
termination_by mes.toNat
decreasing_by omega

/-- The `while True: try date(ano, mes, dia) except: dia -= 1` loop of
`adicionar_meses`, with explicit fuel; `none` means the loop has not
returned within `fuel` iterations (for an invalid month it never
returns, whatever the fuel). -/
def findDiaFuel : Nat → Int → Int → Int → Option PyDate
  | 0, _, _, _ => none
  | fuel + 1, ano, mes, dia =>
    if isValidDate ano mes dia then some ⟨ano, mes, dia⟩
    else findDiaFuel fuel ano mes (dia - 1)

/-- `adicionar_meses` (fuelled): month total, carry loop, then the
day-decrement loop. -/
def adicionar_mesesFuel (fuel : Nat) (data_inicio : PyDate) (meses : Int) :
    Option PyDate :=
  let p := carryLoop data_inicio.year (data_inicio.month + meses)
  findDiaFuel fuel p.1 p.2 data_inicio.day

/-- `adicionar_meses(d, m)` terminates iff some fuel suffices. -/
def adicionarMesesTerminates (d : PyDate) (m : Int) : Prop :=
  ∃ fuel r, adicionar_mesesFuel fuel d m = some r

/-- `calcular_data_fim` simply delegates to `adicionar_meses`. -/
def calcular_data_fimFuel (fuel : Nat) (data_inicio : PyDate)
    (duracao_meses : Int) : Option PyDate :=
  adicionar_mesesFuel fuel data_inicio duracao_meses

/-- `calcular_estado`: Concluído if balance ≤ 0, else Ativo while
`hoje ≤ data_fim`, else Devedor.  The `hoje` default (`date.today()`)
is passed explicitly. -/
def calcular_estado (data_fim : PyDate) (saldo_em_aberto : ℚ)
    (hoje : PyDate) : String :=
  if saldo_em_aberto ≤ 0 then "Concluído"
  else if dateLE hoje data_fim then "Ativo"
  else "Devedor"

/-! ## Python `round(x, 2)` and two-decimal ("centimal") values -/

/-- Round-half-even to the nearest integer (Python's `round` policy,
idealised over exact rationals). -/
def rhe (q : ℚ) : Int :=
  if q - ⌊q⌋ < 1/2 then ⌊q⌋
  else if (1 : ℚ)/2 < q - ⌊q⌋ then ⌊q⌋ + 1
  else if ⌊q⌋ % 2 = 0 then ⌊q⌋ else ⌊q⌋ + 1

/-- `round(x, 2)` modelled on exact rationals. -/
def round2 (q : ℚ) : ℚ := (rhe (q * 100) : ℚ) / 100

/-- A rational is centimal when it is a whole number of hundredths,
i.e. an exact two-decimal currency amount. -/
def Cent (q : ℚ) : Prop := ∃ n : Int, q = (n : ℚ) / 100

/-! ## Credit ledger state and the route operations
(`app/routes/creditos.py`, `app/routes/pagamentos.py`)

Only the fields involved in ledger recomputation are modelled; the
descriptive fields (name, phone, …) play no role in any claim.  The
`hoje` argument stands for `date.today()` at the moment of the request.
-/

/-- The ledger-relevant columns of a `CreditoDB` row. -/
structure Credito where
  valor_solicitado : ℚ
  duracao_meses : Int
  taxa_juros : ℚ
  valor_total_reembolsar : ℚ
  prestacao_mensal : ℚ
  valor_pago : ℚ
  saldo_em_aberto : ℚ
  data_inicio : PyDate
  data_fim : PyDate
  estado : String
deriving Repr, DecidableEq

/-- `_recalcular_credito` of `app/routes/pagamentos.py`: re-round the
cumulative paid amount, recompute the balance (clamped at 0) and the
state. -/
def recalcularCreditoPag (c : Credito) (hoje : PyDate) : Credito :=
  let pago := round2 c.valor_pago
  let s := round2 (c.valor_total_reembolsar - pago)
  let saldo := if s < 0 then 0 else s
  { c with
    valor_pago := pago
    saldo_em_aberto := saldo
    estado := calcular_estado c.data_fim saldo hoje }

/-- `_recalcular_credito` of `app/routes/creditos.py`: recompute the
cumulative paid amount from all payment rows of the credit, then the
balance (`max(0.0, total - pago)`) and the state.  (The source's
`valor_total_reembolsar is None` guard is dead: the column is declared
`nullable=False`; and `p.valor_pago_no_dia or 0` is the identity on the
rational model.) -/
def recalcularCreditoCred (c : Credito) (pagamentos : List ℚ)
    (hoje : PyDate) : Credito :=
  let pago := pagamentos.sum
  let saldo := max 0 (c.valor_total_reembolsar - pago)
  { c with
    valor_pago := pago
    saldo_em_aberto := saldo
    estado := calcular_estado c.data_fim saldo hoje }

/-- Ledger effect of `criar_credito` (`POST /creditos`): compute the
schedule via the calculator, start with zero paid and the full rounded
balance.  Returns `.ok none` when the date loop would not terminate
(unreachable for valid inputs, see `adicionar_meses_total`). -/
def criarCredito (valor_solicitado : ℚ) (duracao_meses : Int)
    (data_inicio hoje : PyDate) : Except String (Option Credito) :=
  match calcular_total_reembolsar valor_solicitado duracao_meses with
  | .error e => .error e
  | .ok (taxa, total) =>
    match calcular_prestacao_mensal total duracao_meses with
    | .error e => .error e
    | .ok prestacao =>
      match calcular_data_fimFuel 31 data_inicio duracao_meses with
      | none => .ok none
      | some data_fim =>
        let valor_pago : ℚ := 0
        let saldo := round2 (total - valor_pago)
        .ok (some
          { valor_solicitado := valor_solicitado
            duracao_meses := duracao_meses
            taxa_juros := taxa
            valor_total_reembolsar := round2 total
            prestacao_mensal := round2 prestacao
            valor_pago := valor_pago
            saldo_em_aberto := saldo
            data_inicio := data_inicio
            data_fim := data_fim
            estado := calcular_estado data_fim saldo hoje })

/-- Ledger effect of `registrar_pagamento` (`POST /pagamentos`): reject
non-positive amounts, add the amount to the cumulative paid (re-rounded)
and recompute.  (Existence/uniqueness checks on ids and receipt numbers
are outside the ledger model.) -/
def registrarPagamento (c : Credito) (valor_pago_no_dia : ℚ)
    (hoje : PyDate) : Except String Credito :=
  if valor_pago_no_dia ≤ 0 then
    .error "O valor pago deve ser maior que 0"
  else
    .ok (recalcularCreditoPag
      { c with valor_pago := round2 (c.valor_pago + valor_pago_no_dia) }
      hoje)

/-- Ledger effect of `atualizar_pagamento` (`PATCH /pagamentos/{id}`)
when the payload changes `valor_pago_no_dia` from `antigo` to `novo`:
apply the delta to the cumulative paid, clamp at 0, recompute. -/
def atualizarPagamentoValor (c : Credito) (antigo novo : ℚ)
    (hoje : PyDate) : Credito :=
  let delta := novo - antigo
  let pago0 := round2 (c.valor_pago + delta)
  let pago := if pago0 < 0 then 0 else pago0
  recalcularCreditoPag { c with valor_pago := pago } hoje

/-- Ledger effect of `apagar_pagamento` (`DELETE /pagamentos/{id}`):
subtract the deleted payment's amount, clamp at 0, recompute. -/
def apagarPagamento (c : Credito) (valor_pago_no_dia : ℚ)
    (hoje : PyDate) : Credito :=
  let pago0 := round2 (c.valor_pago - valor_pago_no_dia)
  let pago := if pago0 < 0 then 0 else pago0
  recalcularCreditoPag { c with valor_pago := pago } hoje

/-- Ledger effect of `atualizar_credito` (`PATCH /creditos/{id}`):
optional updates of the financial inputs; when any of them is present
the schedule and balance are recomputed (balance clamped at 0),
otherwise only the state is refreshed.  Returns `.ok none` when the
date loop would not terminate. -/
def atualizarCredito (c : Credito) (upd_valor : Option ℚ)
    (upd_duracao : Option Int) (upd_inicio : Option PyDate)
    (hoje : PyDate) : Except String (Option Credito) :=
  let c :=
    { c with
      valor_solicitado := upd_valor.getD c.valor_solicitado
      duracao_meses := upd_duracao.getD c.duracao_meses
      data_inicio := upd_inicio.getD c.data_inicio }
  if upd_valor.isSome ∨ upd_duracao.isSome ∨ upd_inicio.isSome then
    match calcular_total_reembolsar c.valor_solicitado c.duracao_meses with
    | .error e => .error e
    | .ok (taxa, total) =>
      match calcular_prestacao_mensal total c.duracao_meses with
      | .error e => .error e
      | .ok prestacao =>
        match calcular_data_fimFuel 31 c.data_inicio c.duracao_meses with
        | none => .ok none
        | some data_fim =>
          let total2 := round2 total
          let s := round2 (total2 - c.valor_pago)
          let saldo := if s < 0 then 0 else s
          .ok (some
            { c with
              taxa_juros := taxa
              valor_total_reembolsar := total2
              prestacao_mensal := round2 prestacao
              data_fim := data_fim
              saldo_em_aberto := saldo
              estado := calcular_estado data_fim saldo hoje })
  else
    .ok (some
      { c with
        estado := calcular_estado c.data_fim c.saldo_em_aberto hoje })

/-! ## Helper lemmas -/

lemma rhe_intCast (n : Int) : rhe (n : ℚ) = n := by simp [rhe]

lemma rhe_nonneg {q : ℚ} (h : 0 ≤ q) : 0 ≤ rhe q := by
  have hf : (0 : Int) ≤ ⌊q⌋ := Int.floor_nonneg.mpr h
  unfold rhe
  split_ifs <;> omega

lemma rhe_nonpos {q : ℚ} (h : q < 0) : rhe q ≤ 0 := by
  have hf : ⌊q⌋ < 0 := by
    by_contra hc
    push_neg at hc
    exact absurd (Int.floor_nonneg.mp hc) (not_le.mpr h)
  unfold rhe
  split_ifs <;> omega

lemma round2_cent {q : ℚ} (h : Cent q) : round2 q = q := by
  obtain ⟨n, rfl⟩ := h
  have h1 : ((n : ℚ) / 100) * 100 = (n : ℚ) := by field_simp
  rw [round2, h1, rhe_intCast]

lemma Cent.add {a b : ℚ} (ha : Cent a) (hb : Cent b) : Cent (a + b) := by
  obtain ⟨n, rfl⟩ := ha
  obtain ⟨m, rfl⟩ := hb
  exact ⟨n + m, by push_cast; ring⟩

lemma Cent.sub {a b : ℚ} (ha : Cent a) (hb : Cent b) : Cent (a - b) := by
  obtain ⟨n, rfl⟩ := ha
  obtain ⟨m, rfl⟩ := hb
  exact ⟨n - m, by push_cast; ring⟩

lemma Cent.zero : Cent 0 := ⟨0, by norm_num⟩

lemma Cent.round2 (q : ℚ) : Cent (round2 q) := ⟨rhe (q * 100), rfl⟩

lemma round2_nonneg {q : ℚ} (h : 0 ≤ q) : 0 ≤ round2 q := by
  have h1 : (0 : Int) ≤ rhe (q * 100) := rhe_nonneg (by positivity)
  have h2 : ((0 : Int) : ℚ) ≤ (rhe (q * 100) : ℚ) := by exact_mod_cast h1
  simp only [Int.cast_zero] at h2
  rw [round2]
  positivity

lemma round2_nonpos {q : ℚ} (h : q < 0) : round2 q ≤ 0 := by
  have h1 : rhe (q * 100) ≤ 0 := rhe_nonpos (by nlinarith)
  have h2 : (rhe (q * 100) : ℚ) ≤ ((0 : Int) : ℚ) := by exact_mod_cast h1
  simp only [Int.cast_zero] at h2
  rw [round2]
  linarith

lemma round2_zero : round2 0 = 0 := round2_cent Cent.zero

/-- The carry loop only increases the year, ends with month ≤ 12, and
keeps the month ≥ 1 when it started ≥ 1. -/
lemma carryLoop_bounds_aux :
    ∀ (n : Nat) (a m : Int), m.toNat ≤ n →
      a ≤ (carryLoop a m).1 ∧ (carryLoop a m).2 ≤ 12 ∧
        (1 ≤ m → 1 ≤ (carryLoop a m).2) := by
  intro n
  induction n with
  | zero =>
    intro a m hn
    rw [carryLoop]
    have hm : ¬ 12 < m := by omega
    simp only [hm, dite_false]
    exact ⟨le_refl a, by omega, by omega⟩
  | succ n ih =>
    intro a m hn
    rw [carryLoop]
    by_cases h : 12 < m
    · simp only [h, dite_true]
      have := ih (a + 1) (m - 12) (by omega)
      exact ⟨by omega, this.2.1, fun _ => this.2.2 (by omega)⟩
    · simp only [h, dite_false]
      exact ⟨le_refl a, by omega, by omega⟩

lemma carryLoop_bounds (a m : Int) :
    a ≤ (carryLoop a m).1 ∧ (carryLoop a m).2 ≤ 12 ∧
      (1 ≤ m → 1 ≤ (carryLoop a m).2) :=
  carryLoop_bounds_aux m.toNat a m (le_refl _)

/-- The carry loop is the identity when no carry is needed. -/
lemma carryLoop_of_le (a m : Int) (h : m ≤ 12) : carryLoop a m = (a, m) := by
  rw [carryLoop]
  simp [show ¬ 12 < m by omega]

lemma daysInMonth_ge (y m : Int) : 28 ≤ daysInMonth y m := by
  unfold daysInMonth
  split_ifs <;> omega

lemma daysInMonth_le (y m : Int) : daysInMonth y m ≤ 31 := by
  unfold daysInMonth
  split_ifs <;> omega

/-- For a month outside 1..12 (or a year outside 1..9999) no day is ever
valid, so the day-decrement loop never returns, whatever the fuel. -/
lemma findDiaFuel_none {a mes : Int} (h : mes < 1 ∨ 12 < mes ∨ a < 1 ∨ 9999 < a) :
    ∀ fuel dia, findDiaFuel fuel a mes dia = none := by
  intro fuel
  induction fuel with
  | zero => intro dia; rfl
  | succ n ih =>
    intro dia
    have hv : ¬ isValidDate a mes dia := by
      unfold isValidDate; omega
    simp only [findDiaFuel, hv, if_false]
    exact ih (dia - 1)

/-- For a valid month/year and a positive starting day within the fuel,
the day-decrement loop returns a valid date. -/
lemma findDiaFuel_some :
    ∀ (fuel : Nat) (a mes dia : Int), 1 ≤ a → a ≤ 9999 → 1 ≤ mes →
      mes ≤ 12 → 1 ≤ dia → dia.toNat ≤ fuel →
      ∃ r, findDiaFuel fuel a mes dia = some r ∧ r.IsValid := by
  intro fuel
  induction fuel with
  | zero => intro a mes dia _ _ _ _ h5 h6; omega
  | succ n ih =>
    intro a mes dia h1 h2 h3 h4 h5 h6
    by_cases hv : isValidDate a mes dia
    · exact ⟨⟨a, mes, dia⟩, by simp [findDiaFuel, hv], hv⟩
    · have hd : daysInMonth a mes < dia := by
        unfold isValidDate at hv
        omega
      have h28 := daysInMonth_ge a mes
      obtain ⟨r, hr, hvr⟩ :=
        ih a mes (dia - 1) h1 h2 h3 h4 (by omega) (by omega)
      exact ⟨r, by simp only [findDiaFuel, hv, if_false]; exact hr, hvr⟩

/-- The successor day is never `dateLE`-below the original date. -/
lemma not_dateLE_nextDay (d : PyDate) : ¬ dateLE (nextDay d) d := by
  unfold nextDay dateLE
  split_ifs with h1 h2 <;> simp

/-- Every rate in the table is positive. -/
lemma taxa_pos {d : Int} {t : ℚ} (h : obter_taxa_por_meses d = .ok t) :
    0 < t := by
  unfold obter_taxa_por_meses at h
  split_ifs at h <;> · injection h with h; rw [← h]; norm_num

/-- The lookup succeeds exactly on durations 1..6. -/
lemma obter_taxa_error {d : Int} (h : d < 1 ∨ 6 < d) :
    obter_taxa_por_meses d =
      .error "Duração inválida. Permitido apenas 1 a 6 meses." := by
  unfold obter_taxa_por_meses
  split_ifs <;> first | rfl | omega

lemma dateLE_refl (d : PyDate) : dateLE d d :=
  Or.inr ⟨rfl, Or.inr ⟨rfl, le_refl _⟩⟩

lemma clamp_eq_max (s : ℚ) : (if s < 0 then 0 else s) = max 0 s := by
  split_ifs with h
  · exact (max_eq_left (le_of_lt h)).symm
  · exact (max_eq_right (not_lt.mp h)).symm

/-- For a supported duration the total computation succeeds on every
principal, with the looked-up rate. -/
lemma calcular_total_ok (v : ℚ) {d : Int} (h1 : 1 ≤ d) (h6 : d ≤ 6) :
    ∃ t : ℚ, obter_taxa_por_meses d = .ok t ∧
      calcular_total_reembolsar v d = .ok (t, v * (1 + t)) := by
  interval_cases d <;> exact ⟨_, rfl, rfl⟩

/-- For an unsupported duration the total computation propagates the
lookup error. -/
lemma calcular_total_err (v : ℚ) {d : Int} (hd : d < 1 ∨ 6 < d) :
    calcular_total_reembolsar v d =
      .error "Duração inválida. Permitido apenas 1 a 6 meses." := by
  unfold calcular_total_reembolsar
  rw [obter_taxa_error hd]

/-- `adicionar_meses` terminates with a valid date whenever the month
total stays ≥ 1 (the carry loop only handles overflow above 12, not
underflow below 1) and the carried year stays within Python's range. -/
lemma adicionar_meses_ok (d : PyDate) (m : Int) (hv : d.IsValid)
    (hm : 1 ≤ d.month + m)
    (hy : (carryLoop d.year (d.month + m)).1 ≤ 9999) :
    ∃ r, adicionar_mesesFuel 31 d m = some r ∧ r.IsValid := by
  obtain ⟨h1, h2, h3⟩ := carryLoop_bounds d.year (d.month + m)
  unfold PyDate.IsValid isValidDate at hv
  have h31 := daysInMonth_le d.year d.month
  unfold adicionar_mesesFuel
  exact findDiaFuel_some 31 _ _ d.day (by omega) hy (h3 hm) h2
    (by omega) (by omega)

/-! ## Claims -/

/-- C1: `calcular_estado` is a total function returning exactly one of
the three states, evaluated in order: Concluído when the balance is
≤ 0 regardless of the dates, else Ativo when the as-of date is on or
before the maturity date (same-day inclusive), else Devedor; in
particular a positive-balance loan is Ativo on the maturity date itself
and Devedor the day after, and a zero-balance loan is Concluído at every
as-of date. -/
theorem calcular_estado_spec (M D : PyDate) (B : ℚ) :
    (calcular_estado M B D = "Concluído" ∨ calcular_estado M B D = "Ativo" ∨
        calcular_estado M B D = "Devedor")
    ∧ (B ≤ 0 → calcular_estado M B D = "Concluído")
    ∧ (0 < B → dateLE D M → calcular_estado M B D = "Ativo")
    ∧ (0 < B → ¬ dateLE D M → calcular_estado M B D = "Devedor")
    ∧ (0 < B → calcular_estado M B M = "Ativo")
    ∧ (0 < B → calcular_estado M B (nextDay M) = "Devedor")
    ∧ calcular_estado M 0 D = "Concluído" := by
  refine ⟨?_, ?_, ?_, ?_, ?_, ?_, ?_⟩ <;> unfold calcular_estado
  · split_ifs <;> simp
  · intro h; rw [if_pos h]
  · intro hB hle; rw [if_neg (by linarith), if_pos hle]
  · intro hB hnle; rw [if_neg (by linarith), if_neg hnle]
  · intro hB; rw [if_neg (by linarith), if_pos (dateLE_refl M)]
  · intro hB; rw [if_neg (by linarith), if_neg (not_dateLE_nextDay M)]
  · rw [if_pos (le_refl (0 : ℚ))]

theorem calcular_estado_spec_witness :
    calcular_estado ⟨2025, 4, 15⟩ 130000 ⟨2025, 4, 15⟩ = "Ativo"
    ∧ calcular_estado ⟨2025, 4, 15⟩ 130000 (nextDay ⟨2025, 4, 15⟩) = "Devedor"
    ∧ calcular_estado ⟨2030, 1, 1⟩ 0 ⟨2999, 12, 31⟩ = "Concluído" :=
  ⟨(calcular_estado_spec ⟨2025, 4, 15⟩ ⟨2025, 4, 15⟩ 130000).2.2.2.2.1
      (by norm_num),
   (calcular_estado_spec ⟨2025, 4, 15⟩ ⟨2025, 4, 15⟩ 130000).2.2.2.2.2.1
      (by norm_num),
   (calcular_estado_spec ⟨2030, 1, 1⟩ ⟨2999, 12, 31⟩ 0).2.2.2.2.2.2⟩

/-- C3: the rate lookup returns the exact table fraction for each
supported duration 1..6 and fails with the "unsupported duration" error
for every other integer; it never defaults a rate. -/
theorem obter_taxa_spec :
    obter_taxa_por_meses 1 = .ok (9/100)
    ∧ obter_taxa_por_meses 2 = .ok (19/100)
    ∧ obter_taxa_por_meses 3 = .ok (30/100)
    ∧ obter_taxa_por_meses 4 = .ok (41/100)
    ∧ obter_taxa_por_meses 5 = .ok (54/100)
    ∧ obter_taxa_por_meses 6 = .ok (68/100)
    ∧ ∀ d : Int, (d < 1 ∨ 6 < d) →
        obter_taxa_por_meses d =
          .error "Duração inválida. Permitido apenas 1 a 6 meses." :=
  ⟨rfl, rfl, rfl, rfl, rfl, rfl, fun _ hd => obter_taxa_error hd⟩

theorem obter_taxa_spec_witness :
    obter_taxa_por_meses 7 =
      .error "Duração inválida. Permitido apenas 1 a 6 meses." :=
  obter_taxa_spec.2.2.2.2.2.2 7 (Or.inr (by norm_num))

/-- C6 counterexample: `calcular_total_reembolsar` does not fail on a
non-positive principal — at principal −100 and supported duration 3 it
returns the rate and a negative total instead of an error. -/
theorem calcular_total_cex :
    calcular_total_reembolsar (-100) 3 = .ok (3/10, -130) := by
  simp only [calcular_total_reembolsar, obter_taxa_por_meses]
  norm_num

/-- C6 (amended): `calcular_total_reembolsar` performs no principal
check at all — for every principal (non-positive included) and every
supported duration it succeeds with `(rate, principal * (1 + rate))`;
it fails exactly on unsupported durations, propagating the rate-lookup
error. -/
theorem calcular_total_spec (v : ℚ) (d : Int) :
    (1 ≤ d → d ≤ 6 →
      ∃ t : ℚ, obter_taxa_por_meses d = .ok t ∧
        calcular_total_reembolsar v d = .ok (t, v * (1 + t)))
    ∧ ((d < 1 ∨ 6 < d) →
      calcular_total_reembolsar v d =
        .error "Duração inválida. Permitido apenas 1 a 6 meses.") :=
  ⟨fun h1 h6 => calcular_total_ok v h1 h6, fun hd => calcular_total_err v hd⟩

theorem calcular_total_spec_witness :
    ∃ t : ℚ, obter_taxa_por_meses 2 = .ok t ∧
      calcular_total_reembolsar (-50) 2 = .ok (t, -50 * (1 + t)) :=
  (calcular_total_spec (-50) 2).1 (by norm_num) (by norm_num)

/-- C7: `calcular_prestacao_mensal` fails with the "invalid duration"
error for every duration ≤ 0 before dividing, returns exactly
`total / duration` for every duration ≥ 1, and composed with
`calcular_total_reembolsar` on a positive principal and supported
duration gives exactly the total divided by the duration. -/
theorem calcular_prestacao_spec (t p : ℚ) (d : Int) :
    (d ≤ 0 → calcular_prestacao_mensal t d = .error "Duração inválida.")
    ∧ (1 ≤ d → calcular_prestacao_mensal t d = .ok (t / (d : ℚ)))
    ∧ (0 < p → 1 ≤ d → d ≤ 6 →
        ∃ taxa total : ℚ,
          calcular_total_reembolsar p d = .ok (taxa, total) ∧
          calcular_prestacao_mensal total d = .ok (total / (d : ℚ))) := by
  refine ⟨?_, ?_, ?_⟩
  · intro h; unfold calcular_prestacao_mensal; rw [if_pos h]
  · intro h; unfold calcular_prestacao_mensal; rw [if_neg (by omega)]
  · intro _ h1 h6
    obtain ⟨taxa, _, htot⟩ := calcular_total_ok p h1 h6
    refine ⟨taxa, p * (1 + taxa), htot, ?_⟩
    unfold calcular_prestacao_mensal
    rw [if_neg (by omega)]

theorem calcular_prestacao_spec_witness :
    calcular_prestacao_mensal 130000 0 = .error "Duração inválida."
    ∧ calcular_prestacao_mensal 130000 3 = .ok (130000 / (3 : ℚ))
    ∧ ∃ taxa total : ℚ,
        calcular_total_reembolsar 100000 3 = .ok (taxa, total) ∧
        calcular_prestacao_mensal total 3 = .ok (total / (3 : ℚ)) :=
  ⟨(calcular_prestacao_spec 130000 100000 0).1 (by norm_num),
   ((calcular_prestacao_spec 130000 100000 3).2.1 (by norm_num)).trans
     (by norm_num),
   (calcular_prestacao_spec 130000 100000 3).2.2 (by norm_num) (by norm_num)
     (by norm_num)⟩

/-- C2 counterexample: `adicionar_meses` does not terminate for every
integer number of months — at start date 2025-01-15 and −1 months the
month total is 0, the carry loop (which only handles overflow above 12)
leaves it at 0, `date(ano, 0, dia)` fails for every day, and the
day-decrement loop never returns: no amount of fuel produces a result. -/
theorem adicionar_meses_nonterm :
    ¬ adicionarMesesTerminates ⟨2025, 1, 15⟩ (-1) := by
  rintro ⟨fuel, r, hr⟩
  have hz : adicionar_mesesFuel fuel ⟨2025, 1, 15⟩ (-1) = none := by
    unfold adicionar_mesesFuel
    have hc : carryLoop (2025 : Int) (1 + -1) = (2025, 0) :=
      carryLoop_of_le 2025 (1 + -1) (by norm_num)
    simp only [hc]
    exact findDiaFuel_none (Or.inl (by norm_num)) fuel 15
  rw [hz] at hr
  exact Option.noConfusion hr

/-- C2 (amended): `adicionar_meses` terminates and returns a valid
calendar date whenever the month total `start.month + months` is at
least 1 (which holds in particular for every non-negative number of
months, across any number of 12-month rollovers) and the carried year
stays within Python's `date` range (≤ 9999); fuel 31 always suffices
because the day decreases from at most 31 down to a valid day.  For a
month total below 1 (reachable only with negative months) the
day-decrement loop never terminates, as the counterexample shows. -/
theorem adicionar_meses_total (d : PyDate) (m : Int) (hv : d.IsValid)
    (hm : 1 ≤ d.month + m)
    (hy : (carryLoop d.year (d.month + m)).1 ≤ 9999) :
    ∃ r, adicionar_mesesFuel 31 d m = some r ∧ r.IsValid :=
  adicionar_meses_ok d m hv hm hy

theorem adicionar_meses_total_witness :
    ∃ r, adicionar_mesesFuel 31 ⟨2025, 1, 15⟩ 26 = some r ∧ r.IsValid :=
  adicionar_meses_total ⟨2025, 1, 15⟩ 26 (by decide) (by norm_num)
    (by simp [carryLoop])

/-- C8: day-of-month clamping on the two specified inputs — one month
after 2025-01-31 is 2025-02-28 (non-leap year) and one month after
2024-01-31 is 2024-02-29 (leap year). -/
theorem adicionar_meses_clamp :
    adicionar_mesesFuel 31 ⟨2025, 1, 31⟩ 1 = some ⟨2025, 2, 28⟩
    ∧ adicionar_mesesFuel 31 ⟨2024, 1, 31⟩ 1 = some ⟨2024, 2, 29⟩ := by
  constructor <;>
    · unfold adicionar_mesesFuel
      rw [carryLoop_of_le _ _ (by norm_num)]
      decide

/-- C9: end-to-end scenario — principal 100000 over 3 months starting
2025-01-15 yields rate 0.30, total 130000, monthly installment
130000/3 = 43333.33 repeating, maturity 2025-04-15; with balance 130000
at 2025-01-15 the state is Ativo, and once the balance reaches 0 it is
Concluído. -/
theorem cenario_e2e :
    calcular_total_reembolsar 100000 3 = .ok (3/10, 130000)
    ∧ calcular_prestacao_mensal 130000 3 = .ok (130000/3)
    ∧ (130000 : ℚ)/3 = 43333 + 1/3
    ∧ adicionar_mesesFuel 31 ⟨2025, 1, 15⟩ 3 = some ⟨2025, 4, 15⟩
    ∧ calcular_estado ⟨2025, 4, 15⟩ 130000 ⟨2025, 1, 15⟩ = "Ativo"
    ∧ calcular_estado ⟨2025, 4, 15⟩ 0 ⟨2025, 4, 20⟩ = "Concluído" := by
  refine ⟨?_, ?_, by norm_num, ?_, ?_, ?_⟩
  · simp only [calcular_total_reembolsar, obter_taxa_por_meses]
    norm_num
  · unfold calcular_prestacao_mensal
    rw [if_neg (by norm_num)]
    norm_num
  · unfold adicionar_mesesFuel
    rw [carryLoop_of_le _ _ (by norm_num)]
    decide
  · unfold calcular_estado
    rw [if_neg (by norm_num), if_pos (by unfold dateLE; norm_num)]
  · unfold calcular_estado
    rw [if_pos (le_refl (0 : ℚ))]

/-! ## Ledger invariants -/

/-- The spec's balance invariant: outstanding balance equals total
repayable minus cumulative paid floored at zero (hence never
negative). -/
def SaldoInv (c : Credito) : Prop :=
  c.saldo_em_aberto =
      max 0 (c.valor_total_reembolsar - c.valor_pago)
    ∧ 0 ≤ c.saldo_em_aberto

lemma recalcPag_fields (c : Credito) (hoje : PyDate) :
    (recalcularCreditoPag c hoje).valor_pago = round2 c.valor_pago
    ∧ (recalcularCreditoPag c hoje).valor_total_reembolsar =
        c.valor_total_reembolsar
    ∧ (recalcularCreditoPag c hoje).saldo_em_aberto =
        max 0 (round2 (c.valor_total_reembolsar - round2 c.valor_pago)) := by
  refine ⟨rfl, rfl, ?_⟩
  simp only [recalcularCreditoPag, clamp_eq_max]

lemma recalcPag_saldoInv (c : Credito) (hoje : PyDate)
    (hT : Cent c.valor_total_reembolsar) (hP : Cent c.valor_pago) :
    SaldoInv (recalcularCreditoPag c hoje) := by
  obtain ⟨h1, h2, h3⟩ := recalcPag_fields c hoje
  constructor
  · rw [h1, h2, h3, round2_cent hP, round2_cent (hT.sub hP)]
  · rw [h3]
    exact le_max_left 0 _

lemma recalcCred_saldoInv (c : Credito) (pagos : List ℚ) (hoje : PyDate) :
    SaldoInv (recalcularCreditoCred c pagos hoje)
    ∧ (recalcularCreditoCred c pagos hoje).valor_pago = pagos.sum := by
  refine ⟨⟨rfl, le_max_left 0 _⟩, rfl⟩

lemma registrar_ok (c : Credito) (v : ℚ) (hoje : PyDate) (hv : 0 < v) :
    registrarPagamento c v hoje =
      .ok (recalcularCreditoPag
        { c with valor_pago := round2 (c.valor_pago + v) } hoje) := by
  unfold registrarPagamento
  rw [if_neg (by linarith)]

lemma registrar_saldoInv (c : Credito) (v : ℚ) (hoje : PyDate)
    (hT : Cent c.valor_total_reembolsar) (hv : 0 < v) :
    ∃ c1, registrarPagamento c v hoje = .ok c1 ∧ SaldoInv c1 :=
  ⟨_, registrar_ok c v hoje hv,
    recalcPag_saldoInv _ hoje hT (Cent.round2 _)⟩

lemma atualizarPag_pago (c : Credito) (antigo novo : ℚ) (hoje : PyDate) :
    (atualizarPagamentoValor c antigo novo hoje).valor_pago =
      round2 (if round2 (c.valor_pago + (novo - antigo)) < 0 then 0
        else round2 (c.valor_pago + (novo - antigo))) := rfl

lemma atualizarPag_saldoInv (c : Credito) (antigo novo : ℚ) (hoje : PyDate)
    (hT : Cent c.valor_total_reembolsar) :
    SaldoInv (atualizarPagamentoValor c antigo novo hoje) := by
  show SaldoInv (recalcularCreditoPag
    { c with valor_pago :=
        if round2 (c.valor_pago + (novo - antigo)) < 0 then 0
        else round2 (c.valor_pago + (novo - antigo)) } hoje)
  refine recalcPag_saldoInv _ hoje hT ?_
  show Cent (if round2 (c.valor_pago + (novo - antigo)) < 0 then 0
    else round2 (c.valor_pago + (novo - antigo)))
  split_ifs
  · exact Cent.zero
  · exact Cent.round2 _

lemma apagar_pago (c : Credito) (v : ℚ) (hoje : PyDate) :
    (apagarPagamento c v hoje).valor_pago =
      round2 (if round2 (c.valor_pago - v) < 0 then 0
        else round2 (c.valor_pago - v)) := rfl

lemma apagar_saldoInv (c : Credito) (v : ℚ) (hoje : PyDate)
    (hT : Cent c.valor_total_reembolsar) :
    SaldoInv (apagarPagamento c v hoje) := by
  show SaldoInv (recalcularCreditoPag
    { c with valor_pago :=
        if round2 (c.valor_pago - v) < 0 then 0
        else round2 (c.valor_pago - v) } hoje)
  refine recalcPag_saldoInv _ hoje hT ?_
  show Cent (if round2 (c.valor_pago - v) < 0 then 0
    else round2 (c.valor_pago - v))
  split_ifs
  · exact Cent.zero
  · exact Cent.round2 _

lemma clampRound_nonneg (x : ℚ) :
    0 ≤ round2 (if round2 x < 0 then 0 else round2 x) := by
  split_ifs with h
  · rw [round2_zero]
  · exact round2_nonneg (not_lt.mp h)

lemma clampRound_zero {x : ℚ} (h : x < 0) :
    round2 (if round2 x < 0 then 0 else round2 x) = 0 := by
  have h1 := round2_nonpos h
  split_ifs with h2
  · exact round2_zero
  · rw [le_antisymm h1 (not_lt.mp h2), round2_zero]

lemma criar_saldoInv (p : ℚ) (d : Int) (d0 hoje : PyDate) (hp : 0 < p)
    (h1 : 1 ≤ d) (h6 : d ≤ 6) (hv : d0.IsValid)
    (hy : (carryLoop d0.year (d0.month + d)).1 ≤ 9999) :
    ∃ c, criarCredito p d d0 hoje = .ok (some c) ∧ SaldoInv c
      ∧ c.valor_pago = 0 ∧ Cent c.valor_total_reembolsar := by
  obtain ⟨t, htax, htot⟩ := calcular_total_ok p h1 h6
  have hm : 1 ≤ d0.month + d := by
    unfold PyDate.IsValid isValidDate at hv; omega
  obtain ⟨r, hr, _⟩ := adicionar_meses_ok d0 d hv hm hy
  have htpos : 0 < p * (1 + t) := by
    have := taxa_pos htax; nlinarith
  refine ⟨{ valor_solicitado := p, duracao_meses := d, taxa_juros := t,
            valor_total_reembolsar := round2 (p * (1 + t)),
            prestacao_mensal := round2 (p * (1 + t) / (d : ℚ)),
            valor_pago := 0,
            saldo_em_aberto := round2 (p * (1 + t) - 0),
            data_inicio := d0, data_fim := r,
            estado := calcular_estado r (round2 (p * (1 + t) - 0)) hoje },
    ?_, ?_, rfl, Cent.round2 _⟩
  · simp only [criarCredito, htot, calcular_prestacao_mensal,
      if_neg (show ¬ d ≤ 0 by omega), calcular_data_fimFuel, hr]
  · constructor
    · show round2 (p * (1 + t) - 0) = max 0 (round2 (p * (1 + t)) - 0)
      rw [sub_zero, sub_zero, max_eq_right (round2_nonneg htpos.le)]
    · show (0 : ℚ) ≤ round2 (p * (1 + t) - 0)
      rw [sub_zero]
      exact round2_nonneg htpos.le

lemma atualizarCredito_recalc_saldoInv (c : Credito) (p : ℚ) (d : Int)
    (d0 hoje : PyDate) (hP : Cent c.valor_pago)
    (h1 : 1 ≤ d) (h6 : d ≤ 6) (hv : d0.IsValid)
    (hy : (carryLoop d0.year (d0.month + d)).1 ≤ 9999) :
    ∃ c1, atualizarCredito c (some p) (some d) (some d0) hoje =
      .ok (some c1) ∧ SaldoInv c1 := by
  obtain ⟨t, _, htot⟩ := calcular_total_ok p h1 h6
  have hm : 1 ≤ d0.month + d := by
    unfold PyDate.IsValid isValidDate at hv; omega
  obtain ⟨r, hr, _⟩ := adicionar_meses_ok d0 d hv hm hy
  refine ⟨{ valor_solicitado := p, duracao_meses := d, taxa_juros := t,
            valor_total_reembolsar := round2 (p * (1 + t)),
            prestacao_mensal := round2 (p * (1 + t) / (d : ℚ)),
            valor_pago := c.valor_pago,
            saldo_em_aberto :=
              if round2 (round2 (p * (1 + t)) - c.valor_pago) < 0 then 0
              else round2 (round2 (p * (1 + t)) - c.valor_pago),
            data_inicio := d0, data_fim := r,
            estado := calcular_estado r
              (if round2 (round2 (p * (1 + t)) - c.valor_pago) < 0 then 0
                else round2 (round2 (p * (1 + t)) - c.valor_pago)) hoje },
    ?_, ?_⟩
  · simp only [atualizarCredito, Option.getD_some, Option.isSome_some,
      true_or, if_true, htot, calcular_prestacao_mensal,
      if_neg (show ¬ d ≤ 0 by omega), calcular_data_fimFuel, hr]
  · constructor
    · show (if round2 (round2 (p * (1 + t)) - c.valor_pago) < 0 then 0
          else round2 (round2 (p * (1 + t)) - c.valor_pago)) =
        max 0 (round2 (p * (1 + t)) - c.valor_pago)
      rw [round2_cent ((Cent.round2 _).sub hP), clamp_eq_max]
    · show (0 : ℚ) ≤ (if round2 (round2 (p * (1 + t)) - c.valor_pago) < 0
          then 0 else round2 (round2 (p * (1 + t)) - c.valor_pago))
      rw [clamp_eq_max]
      exact le_max_left 0 _

lemma atualizarCredito_norecalc (c : Credito) (hoje : PyDate)
    (hc : SaldoInv c) :
    ∃ c1, atualizarCredito c none none none hoje = .ok (some c1)
      ∧ SaldoInv c1 := by
  refine ⟨{ c with estado :=
      calcular_estado c.data_fim c.saldo_em_aberto hoje }, ?_, ?_⟩
  · unfold atualizarCredito
    simp only [Option.getD_none, Option.isSome_none, Bool.false_eq_true,
      or_self, if_false]
  · exact hc

/-- C4: after every ledger-recomputing operation — loan creation, loan
read/list recomputation, loan update (both branches), payment posting,
payment update and payment deletion — the outstanding balance equals
total repayable minus cumulative paid floored at zero, and in
particular is never negative.  Stored amounts are two-decimal currency
values (`Cent`), as the system itself maintains. -/
theorem ledger_saldo_spec (c : Credito) (pagos : List ℚ)
    (v antigo novo p : ℚ) (d : Int) (d0 hoje : PyDate)
    (hT : Cent c.valor_total_reembolsar) (hP : Cent c.valor_pago)
    (hp : 0 < p) (hd1 : 1 ≤ d) (hd6 : d ≤ 6) (hv0 : d0.IsValid)
    (hy : (carryLoop d0.year (d0.month + d)).1 ≤ 9999) :
    (∃ c1, criarCredito p d d0 hoje = .ok (some c1) ∧ SaldoInv c1)
    ∧ SaldoInv (recalcularCreditoCred c pagos hoje)
    ∧ SaldoInv (recalcularCreditoPag c hoje)
    ∧ (0 < v → ∃ c1, registrarPagamento c v hoje = .ok c1 ∧ SaldoInv c1)
    ∧ SaldoInv (atualizarPagamentoValor c antigo novo hoje)
    ∧ SaldoInv (apagarPagamento c v hoje)
    ∧ (∃ c1, atualizarCredito c (some p) (some d) (some d0) hoje =
        .ok (some c1) ∧ SaldoInv c1)
    ∧ (SaldoInv c → ∃ c1, atualizarCredito c none none none hoje =
        .ok (some c1) ∧ SaldoInv c1) := by
  obtain ⟨c1, hc1, hinv1, _, _⟩ := criar_saldoInv p d d0 hoje hp hd1 hd6 hv0 hy
  exact ⟨⟨c1, hc1, hinv1⟩, (recalcCred_saldoInv c pagos hoje).1,
    recalcPag_saldoInv c hoje hT hP,
    fun hv => registrar_saldoInv c v hoje hT hv,
    atualizarPag_saldoInv c antigo novo hoje hT,
    apagar_saldoInv c v hoje hT,
    atualizarCredito_recalc_saldoInv c p d d0 hoje hP hd1 hd6 hv0 hy,
    fun hc => atualizarCredito_norecalc c hoje hc⟩

theorem ledger_saldo_spec_witness :
    SaldoInv (recalcularCreditoPag
      ⟨1000, 3, 3/10, 1300, 1300/3, 100, 1200,
        ⟨2025, 1, 15⟩, ⟨2025, 4, 15⟩, "Ativo"⟩ ⟨2025, 3, 1⟩) :=
  (ledger_saldo_spec
    ⟨1000, 3, 3/10, 1300, 1300/3, 100, 1200,
      ⟨2025, 1, 15⟩, ⟨2025, 4, 15⟩, "Ativo"⟩
    [100] 50 50 20 2000 4 ⟨2025, 2, 1⟩ ⟨2025, 3, 1⟩
    ⟨130000, by norm_num⟩ ⟨10000, by norm_num⟩ (by norm_num)
    (by norm_num) (by norm_num) (by decide)
    (by simp [carryLoop_of_le])).2.2.1

/-- C5 counterexample: updating a payment's value downwards reduces the
loan's cumulative paid amount — a partial payment correction path that
is not a deletion.  Here a loan with 100 paid has a payment updated from
50 to 20, leaving 70 paid. -/
theorem atualizar_pagamento_reduz_pago :
    (atualizarPagamentoValor
      ⟨1000, 3, 3/10, 1300, 1300/3, 100, 1200,
        ⟨2025, 1, 15⟩, ⟨2025, 4, 15⟩, "Ativo"⟩
      50 20 ⟨2025, 2, 1⟩).valor_pago = 70
    ∧ (70 : ℚ) < 100 := by
  have hc : Cent (70 : ℚ) := ⟨7000, by norm_num⟩
  have h70 : round2 ((100 : ℚ) + (20 - 50)) = 70 := by
    rw [show ((100 : ℚ) + (20 - 50)) = 70 by norm_num]
    exact round2_cent hc
  refine ⟨?_, by norm_num⟩
  show round2 (if round2 ((100 : ℚ) + (20 - 50)) < 0 then 0
    else round2 ((100 : ℚ) + (20 - 50))) = 70
  rw [h70, if_neg (show ¬ (70 : ℚ) < 0 by norm_num)]
  exact round2_cent hc

/-- C5 (amended): cumulative paid never decreases under payment posting
(it strictly increases), under ledger recomputation, or under a payment
update that does not lower the payment's value; but it can decrease via
a payment update that lowers the value (see the counterexample) as well
as via payment deletion — the PATCH endpoint does model partial payment
corrections through a delta adjustment. -/
theorem valor_pago_monotone (c : Credito) (v antigo novo : ℚ)
    (pagos : List ℚ) (hoje : PyDate) (hP : Cent c.valor_pago) :
    (0 < v → Cent v →
      ∃ c1, registrarPagamento c v hoje = .ok c1 ∧
        c1.valor_pago = c.valor_pago + v ∧ c.valor_pago < c1.valor_pago)
    ∧ (recalcularCreditoPag c hoje).valor_pago = c.valor_pago
    ∧ (c.valor_pago = pagos.sum →
        (recalcularCreditoCred c pagos hoje).valor_pago = c.valor_pago)
    ∧ (antigo ≤ novo → Cent antigo → Cent novo →
        c.valor_pago ≤ (atualizarPagamentoValor c antigo novo hoje).valor_pago) := by
  refine ⟨?_, ?_, ?_, ?_⟩
  · intro hv hcv
    have heq : round2 (round2 (c.valor_pago + v)) = c.valor_pago + v := by
      rw [round2_cent (Cent.round2 _), round2_cent (hP.add hcv)]
    refine ⟨_, registrar_ok c v hoje hv, ?_, ?_⟩
    · exact heq
    · show c.valor_pago < round2 (round2 (c.valor_pago + v))
      rw [heq]
      linarith
  · exact round2_cent hP
  · intro h
    show pagos.sum = c.valor_pago
    rw [h]
  · intro hle hca hcn
    have hd : Cent (c.valor_pago + (novo - antigo)) := hP.add (hcn.sub hca)
    show c.valor_pago ≤ round2 (if round2 (c.valor_pago + (novo - antigo)) < 0
      then 0 else round2 (c.valor_pago + (novo - antigo)))
    rw [round2_cent hd]
    split_ifs with h0
    · rw [round2_zero]; linarith
    · rw [round2_cent hd]; linarith

theorem valor_pago_monotone_witness :
    ∃ c1, registrarPagamento
      ⟨1000, 3, 3/10, 1300, 1300/3, 200, 1100,
        ⟨2025, 1, 15⟩, ⟨2025, 4, 15⟩, "Ativo"⟩ 50 ⟨2025, 3, 1⟩ = .ok c1
      ∧ c1.valor_pago =
          (⟨1000, 3, 3/10, 1300, 1300/3, 200, 1100,
            ⟨2025, 1, 15⟩, ⟨2025, 4, 15⟩, "Ativo"⟩ : Credito).valor_pago + 50
      ∧ (⟨1000, 3, 3/10, 1300, 1300/3, 200, 1100,
          ⟨2025, 1, 15⟩, ⟨2025, 4, 15⟩, "Ativo"⟩ : Credito).valor_pago
            < c1.valor_pago :=
  (valor_pago_monotone
    ⟨1000, 3, 3/10, 1300, 1300/3, 200, 1100,
      ⟨2025, 1, 15⟩, ⟨2025, 4, 15⟩, "Ativo"⟩
    50 0 0 [] ⟨2025, 3, 1⟩ ⟨20000, by norm_num⟩).1
    (by norm_num) ⟨5000, by norm_num⟩

/-- C10: the payment operations clamp the cumulative paid amount at
zero — whenever a payment update lowers a payment's value, or a payment
deletion removes a payment's value, by more than the recorded cumulative
paid, the stored cumulative paid becomes 0 rather than negative; and it
is never negative after either operation, for every loan state and
payment value. -/
theorem valor_pago_clamped (c : Credito) (antigo novo v : ℚ)
    (hoje : PyDate) :
    0 ≤ (atualizarPagamentoValor c antigo novo hoje).valor_pago
    ∧ (c.valor_pago + (novo - antigo) < 0 →
        (atualizarPagamentoValor c antigo novo hoje).valor_pago = 0)
    ∧ 0 ≤ (apagarPagamento c v hoje).valor_pago
    ∧ (c.valor_pago - v < 0 →
        (apagarPagamento c v hoje).valor_pago = 0) := by
  refine ⟨?_, ?_, ?_, ?_⟩
  · rw [atualizarPag_pago]; exact clampRound_nonneg _
  · intro h; rw [atualizarPag_pago]; exact clampRound_zero h
  · rw [apagar_pago]; exact clampRound_nonneg _
  · intro h; rw [apagar_pago]; exact clampRound_zero h

theorem valor_pago_clamped_witness :
    (⟨1000, 3, 3/10, 1300, 1300/3, 30, 1270,
      ⟨2025, 1, 15⟩, ⟨2025, 4, 15⟩, "Ativo"⟩ : Credito).valor_pago
        + (10 - 50) < 0
    ∧ (atualizarPagamentoValor
        ⟨1000, 3, 3/10, 1300, 1300/3, 30, 1270,
          ⟨2025, 1, 15⟩, ⟨2025, 4, 15⟩, "Ativo"⟩
        50 10 ⟨2025, 3, 1⟩).valor_pago = 0 :=
  ⟨by norm_num,
   (valor_pago_clamped
     ⟨1000, 3, 3/10, 1300, 1300/3, 30, 1270,
       ⟨2025, 1, 15⟩, ⟨2025, 4, 15⟩, "Ativo"⟩
     50 10 0 ⟨2025, 3, 1⟩).2.1 (by norm_num)⟩

end Ukamba
